import Mathlib

/-!
Shallow embedding of the tsdocs client/worker orchestration code:
`src/client/api/get-package-docs.ts` and
`src/server/workers/docs-builder-worker.js`.

JavaScript dynamic values that the code inspects are modelled by the
inductive `JSValue`; thrown exceptions by `Except Unit`; the
`console.warn` side effect of `getErrorMessage` by a `Bool` component of
its result.  Time is modelled by explicit `Nat` clocks: each poll
iteration's network request takes `netDuration` milliseconds and the
`sleep(pollInterval)` takes exactly `pollInterval` milliseconds.
-/

/-- A JavaScript runtime value, restricted to the shapes the embedded code
can observe: `null`, `undefined`, strings, integers, booleans and arrays. -/
inductive JSValue where
  | null
  | undefined
  | str (s : String)
  | num (n : Int)
  | bool (b : Bool)
  | arr (xs : List JSValue)


/-- JS truthiness of a `JSValue` (arrays are always truthy). -/
def jsTruthy : JSValue → Bool
  | .null => false
  | .undefined => false
  | .str s => !(s = "")
  | .num n => !(n = 0)
  | .bool b => b
  | .arr _ => true

mutual
/-- JS `String(v)` / template-literal coercion of a value to a string
(arrays stringify as their elements joined by a comma, with `null` and
`undefined` elements becoming empty, as `Array.prototype.toString`). -/
def jsToString : JSValue → String
  | .null => "null"
  | .undefined => "undefined"
  | .str s => s
  | .num n => toString n
  | .bool b => cond b "true" "false"
  | .arr xs => jsJoin "," xs

/-- JS `Array.prototype.join(sep)`: elements separated by `sep`, with
`null`/`undefined` elements contributing the empty string. -/
def jsJoin (sep : String) : List JSValue → String
  | [] => ""
  | [x] => jsJoinElem x
  | x :: y :: rest => jsJoinElem x ++ sep ++ jsJoin sep (y :: rest)

/-- How a single array element renders inside `join`. -/
def jsJoinElem : JSValue → String
  | .null => ""
  | .undefined => ""
  | v => jsToString v
end

/-- Escape of one character in a JSON string literal. -/
def jsonEscapeChar (c : Char) : String :=
  if c = '"' then "\\\""
  else if c = '\\' then "\\\\"
  else if c = '\n' then "\\n"
  else String.singleton c

/-- Escape a string for inclusion in a JSON string literal. -/
def jsonEscape (s : String) : String :=
  String.join (s.toList.map jsonEscapeChar)

mutual
/-- JS `JSON.stringify(v)` on the modelled value shapes (the code only
applies it to truthy values, so the top-level `undefined` case is
unreachable there; inside arrays `undefined` serialises as `null`). -/
def jsonStringify : JSValue → String
  | .null => "null"
  | .undefined => "null"
  | .str s => "\"" ++ jsonEscape s ++ "\""
  | .num n => toString n
  | .bool b => cond b "true" "false"
  | .arr xs => "[" ++ jsonStringifyList xs ++ "]"

/-- Comma-separated JSON serialisation of array elements. -/
def jsonStringifyList : List JSValue → String
  | [] => ""
  | [x] => jsonStringify x
  | x :: y :: rest => jsonStringify x ++ "," ++ jsonStringifyList (y :: rest)
end

/-- The argument object of `getErrorMessage`: field `name` is the error
code (`none` models an absent/`undefined` name, which matches no `case`),
`extra` is arbitrary, `errorStack` is the optional stack field. -/
structure ErrorInput where
  name : Option String
  extra : JSValue
  errorStack : JSValue


/-- Fixed message of the `PackageNotFoundError` case. -/
def packageNotFoundMsg : String :=
  "This package could not be found on the npm registry. Did you get the name right?"

/-- Fixed lead-in of the `PackageVersionMismatchError` case; the
`\n` escapes are processed inside the source's template literal. -/
def versionMismatchHead : String :=
  "The given version for this package was not found on the npm registry.\n Found versions: \n"

/-- Fixed message of the `TypeDefinitionResolveError` case. -/
def typeDefinitionResolveMsg : String :=
  "Failed to resolve types for this package. " ++
  "This package likely does not ship with types, and it does not have a corresponding package `@types` package " ++
  "from which reference documentation for its APIs can be built."

/-- Literal text of the `TypeDocBuildError` template before `${error.extra}`
(the template literal's own newlines and indentation included). -/
def typeDocHead : String :=
  "Failed to generate documentation for this package. <br /> \n            <details>\n              <summary>See stack trace</summary>\n              <pre>\n                <code><b>"

/-- Literal text of the `TypeDocBuildError` template after the second
substitution. -/
def typeDocTail : String :=
  "</code>\n              </pre>\n            </details>"

/-- JS `a || b` on strings: `b` if `a` is falsy (empty), else `a`. -/
def jsStrOr (a b : String) : String :=
  if a = "" then b else a

/-- The `TypeDocBuildError` message: embeds `${error.extra}` and then
`"\n" + error.errorStack || ""` — the `||` binds after the `+`, exactly as
in the source. -/
def typeDocBuildMsg (extra errorStack : JSValue) : String :=
  typeDocHead ++ jsToString extra ++ "</b>" ++
    jsStrOr ("\n" ++ jsToString errorStack) "" ++ typeDocTail

/-- Embedding of `getErrorMessage` (src/client/api/get-package-docs.ts,
lines 130-164).  The `switch` over `error.name` becomes a chain of string
comparisons.  `Except.error ()` models a thrown `TypeError`
(`error.extra.join` when `extra` is not an array); in the `ok` result the
`Bool` records whether `console.warn` was invoked (only in `default`). -/
def getErrorMessage (error : ErrorInput) : Except Unit (String × Bool) :=
  if error.name = some "PackageNotFoundError" then
    .ok (packageNotFoundMsg, false)
  else if error.name = some "PackageVersionMismatchError" then
    match error.extra with
    | .arr xs => .ok (versionMismatchHead ++ jsJoin ", " xs, false)
    | _ => .error ()
  else if error.name = some "TypeDefinitionResolveError" then
    .ok (typeDefinitionResolveMsg, false)
  else if error.name = some "TypeDocBuildError" then
    .ok (typeDocBuildMsg error.extra error.errorStack, false)
  else
    .ok ("", true)

/-- The client-facing result type `PackageDocsResponse`: `failure` carries
`errorCode` (an `Option String`, `none` modelling an `undefined` code read
off a body without a `name` field) and `errorMessage`. -/
inductive PackageDocsResponse where
  | success
  | failure (errorCode : Option String) (errorMessage : String)
deriving Repr, DecidableEq

/-- One wire response of `GET /api/docs/poll/{jobId}`, viewed untyped as
the code reads it: a `status` string and the failure fields (absent fields
are `none`/`undefined`). -/
structure PollAPIResponse where
  status : String
  errorCode : Option String := none
  errorMessage : JSValue := .undefined
  errorStack : JSValue := .undefined

/-- Outcome of one `axios.get` poll request: either it resolves with a
response, or it rejects with an error that carries an HTTP response
(`status` code and `data` body) or no response at all. -/
inductive PollNetResult where
  | ok (resp : PollAPIResponse)
  | throwResponse (status : Nat) (data : JSValue)
  | throwNoResponse

/-- One poll iteration's network interaction: the request's outcome and its
wall-clock duration in milliseconds. -/
structure PollEvent where
  netDuration : Nat
  result : PollNetResult

/-- Result of running the embedded poll loop against a finite trace of
network events: `pending` means the trace was exhausted while the loop was
about to issue another request; `thrown` models an uncaught exception
(`getErrorMessage` throwing inside the `failed` branch). -/
inductive PollResult where
  | pending
  | thrown
  | done (r : PackageDocsResponse)
deriving Repr, DecidableEq

/-- `const POLL_TIMEOUT = 200_000`. -/
def POLL_TIMEOUT : Nat := 200000

/-- The fixed `DocsBuildTimeout` message. -/
def pollTimeoutMsg : String :=
  "Building docs took longer than expected. Check back in sometime to see if the load on the server has reduced? If this persists, file an issue."

/-- The fixed message for a 404 on the poll endpoint. -/
def poll404Msg : String :=
  "Building docs for this package failed, because the job to build the docs was removed from queue."

/-- Embedding of `pollQueue` (src/client/api/get-package-docs.ts, lines
53-128).  `events` is the trace of network interactions the loop consumes.
In the source, `start = Date.now()` is captured before the request and the
recursive call's accumulator is `timeElapsed + Date.now() - start`
evaluated after `await sleep(pollInterval)`, so the increment is the
request duration plus the sleep: `e.netDuration + pollInterval`. -/
def pollQueue (pollInterval : Nat) (events : List PollEvent)
    (timeElapsed : Nat) : PollResult :=
  if timeElapsed > POLL_TIMEOUT then
    .done (.failure (some "DocsBuildTimeout") pollTimeoutMsg)
  else
    match events with
    | [] => .pending
    | e :: rest =>
      match e.result with
      | .throwResponse status data =>
        .done (.failure (some "UNEXPECTED_DOCS_POLL_FAILURE")
          (if status = 404 then poll404Msg
           else toString status ++ " " ++
             (if jsTruthy data then jsonStringify data else "")))
      | .throwNoResponse =>
        .done (.failure (some "UNEXPECTED_DOCS_POLL_FAILURE") "")
      | .ok resp =>
        if resp.status = "success" then .done .success
        else if resp.status = "queued" then
          pollQueue pollInterval rest (timeElapsed + e.netDuration + pollInterval)
        else if resp.status = "failed" then
          match getErrorMessage ⟨resp.errorCode, resp.errorMessage, resp.errorStack⟩ with
          | .ok (msg, _) => .done (.failure resp.errorCode msg)
          | .error _ => .thrown
        else
          .done (.failure (some "UNEXPECTED_DOCS_POLL_STATUS")
            ("Failed because the polling API returned an unknown status: " ++ resp.status))

/-- The rejection of a trigger/build `axios.post`, as the shared `catch`
blocks observe it: `body b` is a truthy `err.response.data` object (the
fields the code reads), `falsyData` a response whose `data` is falsy, and
`noResponse` no response at all (`err.response?.data` is `undefined`). -/
inductive TriggerErrData where
  | noResponse
  | falsyData
  | body (b : ErrorInput)

/-- Embedding of the identical `catch` blocks of `getPackageDocs` (lines
180-195) and `getPackageDocsSync` (lines 235-250): when `err.response?.data`
is truthy, the failure's code is `err.response.data.name` verbatim and the
message is `getErrorMessage(err.response.data)` (whose exception, if any,
propagates); otherwise the fixed trigger-failure code with empty message. -/
def triggerCatch : TriggerErrData → PollResult
  | .noResponse =>
    .done (.failure (some "UNEXPECTED_DOCS_TRIGGER_FAILURE") "")
  | .falsyData =>
    .done (.failure (some "UNEXPECTED_DOCS_TRIGGER_FAILURE") "")
  | .body b =>
    match getErrorMessage b with
    | .ok (msg, _) => .done (.failure b.name msg)
    | .error _ => .thrown

/-- One wire response of the async trigger endpoint, untyped. -/
structure TriggerAPIResponse where
  status : String
  jobId : String := ""
  pollInterval : Nat := 0

/-- Embedding of `getPackageDocs` (lines 166-228): the trigger request
either rejects (`Except.error`, handled by the `catch` block) or resolves;
`success` and `queued` are handled, `queued` entering `pollQueue` with
`timeElapsed = 0` over the supplied poll-event trace. -/
def getPackageDocs (trigger : Except TriggerErrData TriggerAPIResponse)
    (events : List PollEvent) : PollResult :=
  match trigger with
  | .error e => triggerCatch e
  | .ok r =>
    if r.status = "success" then .done .success
    else if r.status = "queued" then pollQueue r.pollInterval events 0
    else
      .done (.failure (some "UNEXPECTED_DOCS_TRIGGER_STATUS")
        ("Failed because the polling API returned an unknown status: " ++ r.status))

/-- One wire response of the sync build endpoint, untyped. -/
structure BuildAPIResponse where
  status : String
  errorCode : Option String := none
  errorMessage : JSValue := .undefined
  errorStack : JSValue := .undefined

/-- Embedding of `getPackageDocsSync` (lines 230-283): same `catch` block;
a resolved non-`success` response is mapped through `getErrorMessage`. -/
def getPackageDocsSync (trigger : Except TriggerErrData BuildAPIResponse) :
    PollResult :=
  match trigger with
  | .error e => triggerCatch e
  | .ok r =>
    if r.status = "success" then .done .success
    else
      match getErrorMessage ⟨r.errorCode, r.errorMessage, r.errorStack⟩ with
      | .ok (msg, _) => .done (.failure r.errorCode msg)
      | .error _ => .thrown

/-- The `originalError` fields of a thrown build error, read through
`err?.originalError?.stack` and `err?.originalError?.message` —
`JSValue`-typed since those properties may themselves be absent. -/
structure InnerError where
  stack : JSValue
  message : JSValue

/-- A JavaScript error thrown by `generateDocsForPackage`: its `message`
and its optional `originalError` property. -/
structure ThrownError where
  message : String
  originalError : Option InnerError

/-- `err?.originalError?.stack`. -/
def thrownStack (err : ThrownError) : JSValue :=
  match err.originalError with
  | some i => i.stack
  | none => .undefined

/-- `err?.originalError?.message`. -/
def thrownMessage (err : ThrownError) : JSValue :=
  match err.originalError with
  | some i => i.message
  | none => .undefined

/-- The `originalError` object the worker writes onto the job record. -/
structure JobOriginalError where
  code : String
  stacktrace : JSValue
  message : JSValue

/-- The `job.data` payload of a queued docs-build job. -/
structure JobData where
  packageJSON : String
  force : Bool
  originalError : Option JobOriginalError := none

/-- Result of one invocation of the worker's job handler: the refreshed
`workerActiveTime` module variable, the job's (possibly updated) data, and
the value returned or the error re-thrown to the queue. -/
structure HandlerOutcome where
  workerActiveTime : Nat
  jobData : JobData
  outcome : Except ThrownError String

/-- Embedding of the job handler `module.exports` of
src/server/workers/docs-builder-worker.js (lines 17-34).  `now` is
`Date.now()` at invocation; `buildResult` is the outcome of the awaited
`generateDocsForPackage(job.data.packageJSON, {force: job.data.force})`
call, an external collaborator.  `workerActiveTime = Date.now()` is
executed before the build; on failure the handler spreads `job.data`,
attaches `originalError` and re-throws the same error. -/
def workerHandler (now : Nat) (job : JobData)
    (buildResult : Except ThrownError String) : HandlerOutcome :=
  match buildResult with
  | .ok r => ⟨now, job, .ok r⟩
  | .error err =>
    let attached : JobOriginalError :=
      ⟨err.message, thrownStack err, thrownMessage err⟩
    ⟨now, { job with originalError := some attached }, .error err⟩

/-- `1000 * 60 * 5`, the idle threshold of the watchdog. -/
def IDLE_THRESHOLD : Nat := 1000 * 60 * 5

/-- What one tick of the `setInterval` watchdog does. -/
inductive WatchdogAction where
  | keepRunning
  | exitProcess (code : Nat)
deriving Repr, DecidableEq

/-- Embedding of the watchdog tick (docs-builder-worker.js, lines 10-15):
`process.exit(1)` when `Date.now() - workerActiveTime > 1000 * 60 * 5`. -/
def watchdogTick (now workerActiveTime : Nat) : WatchdogAction :=
  if now - workerActiveTime > IDLE_THRESHOLD then .exitProcess 1
  else .keepRunning

/-- C1 (amended): `pollQueue` returns the fixed `DocsBuildTimeout` failure
exactly when the accumulated `timeElapsed` is strictly greater than the
200,000 ms budget (the source tests `timeElapsed > POLL_TIMEOUT`); the
result is the same for every event trace, in particular the empty one, so
no further network call is consumed. -/
theorem pollQueue_timeout_strict (pollInterval : Nat) (events : List PollEvent)
    (timeElapsed : Nat) (h : timeElapsed > POLL_TIMEOUT) :
    pollQueue pollInterval events timeElapsed
      = .done (.failure (some "DocsBuildTimeout") pollTimeoutMsg) := by
  cases events <;> simp [pollQueue, h]

/-- C1 witness: the timeout theorem instantiated at
`timeElapsed = 200001` with an empty network trace. -/
theorem pollQueue_timeout_strict_witness :
    200001 > POLL_TIMEOUT
    ∧ pollQueue 1000 [] 200001
        = .done (.failure (some "DocsBuildTimeout") pollTimeoutMsg) :=
  ⟨by decide, pollQueue_timeout_strict 1000 [] 200001 (by decide)⟩

/-- C1 counterexample: at `timeElapsed = 200000` (at least, but not
strictly greater than, the budget) the loop does issue another network
call — it consumes the trace's `success` event and returns success, not
the `DocsBuildTimeout` failure the claim requires. -/
theorem pollQueue_timeout_at_exact_budget :
    pollQueue 1000 [⟨0, .ok ⟨"success", none, .undefined, .undefined⟩⟩] 200000
      = .done .success
    ∧ pollQueue 1000 [⟨0, .ok ⟨"success", none, .undefined, .undefined⟩⟩] 200000
      ≠ .done (.failure (some "DocsBuildTimeout") pollTimeoutMsg) := ⟨rfl, by decide⟩

/-- C2 (amended): on a `queued` poll response below the timeout budget,
the accumulator passed to the next iteration is incremented by the network
duration PLUS the sleep interval: in the source `Date.now() - start` is
evaluated only after `await sleep(pollInterval)`, so the sleep is counted
toward the elapsed total. -/
theorem pollQueue_queued_increment (pollInterval netDuration timeElapsed : Nat)
    (rest : List PollEvent) (resp : PollAPIResponse)
    (hle : ¬ timeElapsed > POLL_TIMEOUT) (hq : resp.status = "queued") :
    pollQueue pollInterval (⟨netDuration, .ok resp⟩ :: rest) timeElapsed
      = pollQueue pollInterval rest (timeElapsed + netDuration + pollInterval) := by
  simp [pollQueue, hle, hq]

/-- C2 witness: one `queued` event with a 7 ms request and a 1000 ms poll
interval recurses with accumulator `0 + 7 + 1000`. -/
theorem pollQueue_queued_increment_witness :
    (¬ (0:Nat) > POLL_TIMEOUT)
    ∧ (PollAPIResponse.mk "queued" none .undefined .undefined).status = "queued"
    ∧ pollQueue 1000 [⟨7, .ok ⟨"queued", none, .undefined, .undefined⟩⟩] 0
        = pollQueue 1000 [] (0 + 7 + 1000) :=
  ⟨by decide, rfl,
   pollQueue_queued_increment 1000 7 0 [] ⟨"queued", none, .undefined, .undefined⟩
     (by decide) rfl⟩

/-- C2 counterexample: with `pollInterval = 200001` and two instantaneous
(`netDuration = 0`) responses `queued` then `success`, the loop returns
the `DocsBuildTimeout` failure, not success — under the claim (sleep not
counted, increment exactly the network duration) the second iteration
would see `timeElapsed = 0` and return success. -/
theorem pollQueue_sleep_counted :
    pollQueue 200001 [⟨0, .ok ⟨"queued", none, .undefined, .undefined⟩⟩,
                      ⟨0, .ok ⟨"success", none, .undefined, .undefined⟩⟩] 0
      = .done (.failure (some "DocsBuildTimeout") pollTimeoutMsg)
    ∧ pollQueue 200001 [⟨0, .ok ⟨"queued", none, .undefined, .undefined⟩⟩,
                        ⟨0, .ok ⟨"success", none, .undefined, .undefined⟩⟩] 0
      ≠ .done .success := ⟨rfl, by decide⟩

/-- C3 (amended): `getErrorMessage` returns a string (never throws) for
every input except the one exception witnessed by the counterexample: a
`PackageVersionMismatchError` whose `extra` is not an array (there
`extra.join` raises a `TypeError`). -/
theorem getErrorMessage_total_on_wellformed (e : ErrorInput)
    (h : e.name = some "PackageVersionMismatchError" → ∃ xs, e.extra = .arr xs) :
    ∃ r, getErrorMessage e = .ok r := by
  unfold getErrorMessage
  split_ifs with h1 h2 h3 h4
  · exact ⟨_, rfl⟩
  · obtain ⟨xs, hxs⟩ := h h2
    rw [hxs]
    exact ⟨_, rfl⟩
  · exact ⟨_, rfl⟩
  · exact ⟨_, rfl⟩
  · exact ⟨_, rfl⟩

/-- C3 witness: a version-mismatch input with an array `extra` yields a
message. -/
theorem getErrorMessage_total_on_wellformed_witness :
    ∃ r, getErrorMessage
      ⟨some "PackageVersionMismatchError", .arr [.str "1.0.0"], .undefined⟩ = .ok r :=
  getErrorMessage_total_on_wellformed
    ⟨some "PackageVersionMismatchError", .arr [.str "1.0.0"], .undefined⟩
    (fun _ => ⟨[.str "1.0.0"], rfl⟩)

/-- C3 counterexample: `getErrorMessage` throws (models the `TypeError`
from `error.extra.join` on a non-array) for a
`PackageVersionMismatchError` whose `extra` is `null`, so it is not
total. -/
theorem getErrorMessage_throws_on_nonarray :
    getErrorMessage ⟨some "PackageVersionMismatchError", .null, .undefined⟩
      = .error () := rfl

/-- C4 (code bug): for a `TypeDocBuildError` with an absent (`undefined`)
stack, the returned message contains the literal fragment `"\nundefined"`:
in `"\n" + error.errorStack || ""` the `+` binds before `||`, and
`"\n" + undefined` is the truthy string `"\nundefined"`, so the `|| ""`
guard never applies. -/
theorem typeDocBuild_undefined_fragment :
    getErrorMessage ⟨some "TypeDocBuildError", .str "boom", .undefined⟩
      = .ok (typeDocHead ++ "boom" ++ "</b>" ++ "\nundefined" ++ typeDocTail,
             false) := by
  simp [getErrorMessage, typeDocBuildMsg, jsStrOr, jsToString]

/-- C5: every transport failure of a poll request (below the timeout
budget) yields errorCode `UNEXPECTED_DOCS_POLL_FAILURE`: the fixed
"removed from queue" text on a 404, the status code followed by the
serialized body on any other HTTP error with a response, and the empty
message when there is no response at all. -/
theorem pollQueue_transport_failure (pollInterval d timeElapsed s : Nat)
    (rest : List PollEvent) (data : JSValue)
    (hle : ¬ timeElapsed > POLL_TIMEOUT) :
    (pollQueue pollInterval (⟨d, .throwResponse 404 data⟩ :: rest) timeElapsed
       = .done (.failure (some "UNEXPECTED_DOCS_POLL_FAILURE") poll404Msg))
    ∧ (s ≠ 404 →
       pollQueue pollInterval (⟨d, .throwResponse s data⟩ :: rest) timeElapsed
         = .done (.failure (some "UNEXPECTED_DOCS_POLL_FAILURE")
             (toString s ++ " " ++ (if jsTruthy data then jsonStringify data else ""))))
    ∧ (pollQueue pollInterval (⟨d, .throwNoResponse⟩ :: rest) timeElapsed
         = .done (.failure (some "UNEXPECTED_DOCS_POLL_FAILURE") "")) := by
  refine ⟨?_, ?_, ?_⟩
  · simp [pollQueue, hle]
  · intro hs; simp [pollQueue, hle, hs]
  · simp [pollQueue, hle]

/-- C5 witness: the transport-failure theorem instantiated at a 404, a
500 with body `"oops"`, and a response-less failure. -/
theorem pollQueue_transport_failure_witness :
    (¬ (0:Nat) > POLL_TIMEOUT) ∧ ((500:Nat) ≠ 404)
    ∧ ((pollQueue 1000 [⟨5, .throwResponse 404 (.str "oops")⟩] 0
        = .done (.failure (some "UNEXPECTED_DOCS_POLL_FAILURE") poll404Msg))
      ∧ ((500:Nat) ≠ 404 →
        pollQueue 1000 [⟨5, .throwResponse 500 (.str "oops")⟩] 0
          = .done (.failure (some "UNEXPECTED_DOCS_POLL_FAILURE")
              (toString (500:Nat) ++ " "
                ++ (if jsTruthy (.str "oops") then jsonStringify (.str "oops") else ""))))
      ∧ (pollQueue 1000 [⟨5, .throwNoResponse⟩] 0
          = .done (.failure (some "UNEXPECTED_DOCS_POLL_FAILURE") "")))
    ∧ pollQueue 1000 [⟨5, .throwResponse 500 (.str "oops")⟩] 0
        = .done (.failure (some "UNEXPECTED_DOCS_POLL_FAILURE")
            (toString (500:Nat) ++ " "
              ++ (if jsTruthy (.str "oops") then jsonStringify (.str "oops") else ""))) :=
  ⟨by decide, by decide,
   pollQueue_transport_failure 1000 5 0 500 [] (.str "oops") (by decide),
   (pollQueue_transport_failure 1000 5 0 500 [] (.str "oops") (by decide)).2.1
     (by decide)⟩

/-- C6: when the build function throws, the job handler writes onto the
job record an `originalError` with `code` the thrown error's message,
`stacktrace` the original error's stack and `message` the original error's
message (via optional chaining), leaves `packageJSON` and `force`
untouched, and re-raises the very same error. -/
theorem workerHandler_attaches_original_error (now : Nat) (job : JobData)
    (err : ThrownError) :
    (workerHandler now job (.error err)).jobData.originalError
      = some ⟨err.message, thrownStack err, thrownMessage err⟩
    ∧ (workerHandler now job (.error err)).jobData.packageJSON = job.packageJSON
    ∧ (workerHandler now job (.error err)).jobData.force = job.force
    ∧ (workerHandler now job (.error err)).outcome = .error err
    ∧ (workerHandler now job (.error err)).workerActiveTime = now :=
  ⟨rfl, rfl, rfl, rfl, rfl⟩

/-- C7: the watchdog tick exits the process exactly when the time since
the last job attempt started strictly exceeds the 5-minute
(`1000 * 60 * 5` ms) idle threshold — so it never exits within the
threshold — and every job-handler invocation sets `workerActiveTime` to
the invocation time, for every build outcome (the assignment precedes the
`await` of the build in the source). -/
theorem watchdog_threshold_and_refresh (now t : Nat) :
    (watchdogTick now t = .exitProcess 1 ↔ now - t > IDLE_THRESHOLD)
    ∧ IDLE_THRESHOLD = 1000 * 60 * 5
    ∧ ∀ (job : JobData) (br : Except ThrownError String),
        (workerHandler now job br).workerActiveTime = now := by
  refine ⟨?_, rfl, ?_⟩
  · unfold watchdogTick
    by_cases h : now - t > IDLE_THRESHOLD
    · simp [h]
    · simp [h]
  · intro job br; cases br <;> rfl

/-- C8: an unrecognized error code falls to the `default` branch, which
logs a warning (the `true` flag) and returns the empty string without
throwing. -/
theorem getErrorMessage_unknown_code (e : ErrorInput)
    (h1 : e.name ≠ some "PackageNotFoundError")
    (h2 : e.name ≠ some "PackageVersionMismatchError")
    (h3 : e.name ≠ some "TypeDefinitionResolveError")
    (h4 : e.name ≠ some "TypeDocBuildError") :
    getErrorMessage e = .ok ("", true) := by
  simp [getErrorMessage, h1, h2, h3, h4]

/-- C8 witness: the unknown-code theorem at code `"TotallyUnknownError"`. -/
theorem getErrorMessage_unknown_code_witness :
    ((some "TotallyUnknownError" : Option String) ≠ some "PackageNotFoundError")
    ∧ ((some "TotallyUnknownError" : Option String) ≠ some "PackageVersionMismatchError")
    ∧ ((some "TotallyUnknownError" : Option String) ≠ some "TypeDefinitionResolveError")
    ∧ ((some "TotallyUnknownError" : Option String) ≠ some "TypeDocBuildError")
    ∧ getErrorMessage ⟨some "TotallyUnknownError", .null, .undefined⟩ = .ok ("", true) :=
  ⟨by decide, by decide, by decide, by decide,
   getErrorMessage_unknown_code ⟨some "TotallyUnknownError", .null, .undefined⟩
     (by decide) (by decide) (by decide) (by decide)⟩

/-- C9: a resolved poll response whose status is none of `success`,
`queued` or `failed` (below the timeout budget) terminates with errorCode
`UNEXPECTED_DOCS_POLL_STATUS` and a message naming the unexpected status,
a `done` result rather than a thrown exception. -/
theorem pollQueue_unknown_status (pollInterval d timeElapsed : Nat)
    (rest : List PollEvent) (resp : PollAPIResponse)
    (hle : ¬ timeElapsed > POLL_TIMEOUT)
    (h1 : resp.status ≠ "success") (h2 : resp.status ≠ "queued")
    (h3 : resp.status ≠ "failed") :
    pollQueue pollInterval (⟨d, .ok resp⟩ :: rest) timeElapsed
      = .done (.failure (some "UNEXPECTED_DOCS_POLL_STATUS")
          ("Failed because the polling API returned an unknown status: "
            ++ resp.status)) := by
  simp [pollQueue, hle, h1, h2, h3]

/-- C9 witness: the unknown-status theorem at status `"bogus"`. -/
theorem pollQueue_unknown_status_witness :
    (¬ (0:Nat) > POLL_TIMEOUT)
    ∧ (("bogus":String) ≠ "success") ∧ (("bogus":String) ≠ "queued")
    ∧ (("bogus":String) ≠ "failed")
    ∧ pollQueue 1000 [⟨5, .ok ⟨"bogus", none, .undefined, .undefined⟩⟩] 0
        = .done (.failure (some "UNEXPECTED_DOCS_POLL_STATUS")
            ("Failed because the polling API returned an unknown status: "
              ++ (PollAPIResponse.mk "bogus" none .undefined .undefined).status)) :=
  ⟨by decide, by decide, by decide, by decide,
   pollQueue_unknown_status 1000 5 0 [] ⟨"bogus", none, .undefined, .undefined⟩
     (by decide) (by decide) (by decide) (by decide)⟩

/-- C10 (amended): for a trigger/sync-build transport failure whose
truthy response body does not make `getErrorMessage` throw, both
`getPackageDocs` and `getPackageDocsSync` return a failure with errorCode
the body's `name` verbatim (possibly `undefined`) and message
`getErrorMessage` of the body; with no (or a falsy) body the code is
`UNEXPECTED_DOCS_TRIGGER_FAILURE` with the empty message. -/
theorem trigger_catch_body_mapping (b : ErrorInput) (msg : String) (w : Bool)
    (events : List PollEvent)
    (h : getErrorMessage b = .ok (msg, w)) :
    (getPackageDocs (.error (.body b)) events = .done (.failure b.name msg))
    ∧ (getPackageDocsSync (.error (.body b)) = .done (.failure b.name msg))
    ∧ (getPackageDocs (.error .noResponse) events
        = .done (.failure (some "UNEXPECTED_DOCS_TRIGGER_FAILURE") ""))
    ∧ (getPackageDocsSync (.error .noResponse)
        = .done (.failure (some "UNEXPECTED_DOCS_TRIGGER_FAILURE") ""))
    ∧ (getPackageDocs (.error .falsyData) events
        = .done (.failure (some "UNEXPECTED_DOCS_TRIGGER_FAILURE") ""))
    ∧ (getPackageDocsSync (.error .falsyData)
        = .done (.failure (some "UNEXPECTED_DOCS_TRIGGER_FAILURE") "")) := by
  refine ⟨?_, ?_, rfl, rfl, rfl, rfl⟩ <;>
    simp [getPackageDocs, getPackageDocsSync, triggerCatch, h]

/-- C10 witness: a `PackageNotFoundError` body maps to its name as code
and the fixed not-found message. -/
theorem trigger_catch_body_mapping_witness :
    getErrorMessage ⟨some "PackageNotFoundError", .null, .undefined⟩
      = .ok (packageNotFoundMsg, false)
    ∧ getPackageDocs (.error (.body ⟨some "PackageNotFoundError", .null, .undefined⟩)) []
        = .done (.failure (some "PackageNotFoundError") packageNotFoundMsg) :=
  ⟨rfl,
   (trigger_catch_body_mapping ⟨some "PackageNotFoundError", .null, .undefined⟩
     packageNotFoundMsg false [] rfl).1⟩

/-- C10 counterexample: a transport failure carrying a truthy body with
`name = "PackageVersionMismatchError"` and a non-array `extra` makes both
functions propagate the `getErrorMessage` exception instead of returning a
failure built from the body. -/
theorem trigger_catch_throws_on_mismatch_body :
    getPackageDocs
      (.error (.body ⟨some "PackageVersionMismatchError", .null, .undefined⟩)) []
      = .thrown
    ∧ getPackageDocsSync
        (.error (.body ⟨some "PackageVersionMismatchError", .null, .undefined⟩))
      = .thrown := ⟨rfl, rfl⟩
